import Mathlib

/-!
# Verification of the NYC 311 analytics agent

A shallow embedding of the agent's workflow orchestrator (`agent.py`), its
pandas code-execution sandbox and matplotlib visualization sandbox
(`tools.py`), together with proofs about retry bounds, sandbox isolation,
result classification, code-fence extraction, and the top-level query API.

Python string primitives used by the source (`str.strip`, `str.split`,
`str.upper`, the `in` containment test, `str.rstrip`) are modelled
character-by-character below.  Language-model replies and sandbox outcomes
are treated as oracle inputs (they come from external collaborators), so
theorems quantify over them.
-/

namespace NYC311

/-! ## Python string primitives -/

/-- Characters removed by Python's `str.strip()` (ASCII whitespace). -/
def pyWs (c : Char) : Bool :=
  c = ' ' || c = '\t' || c = '\n' || c = '\r' || c = '\x0b' || c = '\x0c'

/-- Python `s.strip()`: drop leading and trailing whitespace. -/
def pyStrip (s : String) : String :=
  ⟨((s.data.dropWhile pyWs).reverse.dropWhile pyWs).reverse⟩

/-- Python `s.rstrip(t)` for a single character `t`: drop trailing copies of `t`. -/
def pyRstrip (t : Char) (s : String) : String :=
  ⟨(s.data.reverse.dropWhile (fun c => c = t)).reverse⟩

/-- Python `s.upper()` on ASCII text. -/
def pyUpper (s : String) : String :=
  ⟨s.data.map Char.toUpper⟩

/-- Does `pat` occur at the head of `l`? (Python startswith, on char lists.) -/
def leadMatch : List Char → List Char → Bool
  | [], _ => true
  | _ :: _, [] => false
  | p :: ps, c :: cs => p = c && leadMatch ps cs

/-- Does `pat` occur somewhere in `l`? (Python's `pat in s`, on char lists.) -/
def containsSeq (pat : List Char) : List Char → Bool
  | [] => pat.isEmpty
  | c :: rest => leadMatch pat (c :: rest) || containsSeq pat rest

/-- Python's substring containment test `pat in s`. -/
def pyContains (pat s : String) : Bool :=
  containsSeq pat.data s.data

/-- Worker for Python `s.split(sep)` with a non-empty separator: scan left to
right, splitting at each non-overlapping occurrence of `sep`.  The fuel
argument (instantiated with the input length, which bounds the number of
scanning steps) only makes the recursion structural. -/
def pySplitFuel (sep : List Char) : Nat → List Char → List Char → List (List Char)
  | _, acc, [] => [acc.reverse]
  | 0, acc, l => [acc.reverse ++ l]
  | n + 1, acc, c :: rest =>
    if leadMatch sep (c :: rest) then
      acc.reverse :: pySplitFuel sep n [] ((c :: rest).drop sep.length)
    else
      pySplitFuel sep n (c :: acc) rest

/-- Python `s.split(sep)` for a non-empty separator. -/
def pySplit (sep s : String) : List String :=
  (pySplitFuel sep.data s.data.length [] s.data).map (fun l => ⟨l⟩)

/-- Code-fence extraction as performed identically in `generate_code`,
`retry_code` and `generate_visualization` (`agent.py`): if `"```python"`
occurs, keep what lies between the first `"```python"` and the next
`"```"`; otherwise if `"```"` occurs, keep what lies between the first two
occurrences of `"```"`; otherwise keep the raw text.  In every case the
kept text is finally passed through `.strip()`. -/
def extractCode (code : String) : String :=
  let body :=
    if pyContains "```python" code then
      ((pySplit "```" ((pySplit "```python" code).getD 1 "")).getD 0 "")
    else if pyContains "```" code then
      ((pySplit "```" ((pySplit "```" code).getD 1 "")).getD 0 "")
    else code
  pyStrip body

/-! ## The code-execution sandbox (`tools.py`)

Python objects that generated code may store in the `result` slot are
modelled by `PyValue`; the mutable object heap (needed to state that the
sandbox works on a *copy* of the caller's DataFrame) is a list of
DataFrame cells addressed by position.  Behavior of the pandas /
matplotlib / builtin rendering routines that live outside this repository
(`DataFrame.to_string`, float formatting, `str` on dicts, PNG encoding) is
abstracted as a `PyLib` record of rendering functions. -/

/-- An in-memory tabular dataset (pandas DataFrame), modelled by its column
names and string-rendered rows; the claims never inspect the payload. -/
structure DataFrame where
  cols : List String
  rows : List (List String)
  deriving DecidableEq

instance : Inhabited DataFrame := ⟨⟨[], []⟩⟩

/-- A pandas Series, modelled by its index and values. -/
structure SeriesData where
  idx : List String
  vals : List String
  deriving DecidableEq

/-- Python values that generated code can leave in the `result` slot.
Payloads of shapes whose internals the claims never inspect are kept as
rendered strings. -/
inductive PyValue where
  | vDataFrame (d : DataFrame)
  | vSeries (s : SeriesData)
  | vInt (n : Int)
  | vFloat (repr : String)
  | vDict (entries : List (String × String))
  | vStr (s : String)
  | vList (elems : List String)
  | vNone
  | vOther (tyName : String) (rendered : String)
  deriving DecidableEq

/-- Python's `type(v).__name__`. -/
def pyTypeName : PyValue → String
  | .vDataFrame _ => "DataFrame"
  | .vSeries _ => "Series"
  | .vInt _ => "int"
  | .vFloat _ => "float"
  | .vDict _ => "dict"
  | .vStr _ => "str"
  | .vList _ => "list"
  | .vNone => "NoneType"
  | .vOther tyName _ => tyName

/-- The spec's closed set of result-shape tags; `classifyResult` maps each
branch of the `isinstance` chain in `execute_pandas_code` to its tag. -/
inductive ResultClass where
  | Table
  | Column
  | Scalar
  | Mapping
  | Other
  deriving DecidableEq

/-- The `isinstance` chain of `execute_pandas_code` (`tools.py`): DataFrame,
then Series, then `(int, float)`, then dict, then the catch-all. -/
def classifyResult : PyValue → ResultClass
  | .vDataFrame _ => .Table
  | .vSeries _ => .Column
  | .vInt _ => .Scalar
  | .vFloat _ => .Scalar
  | .vDict _ => .Mapping
  | _ => .Other

/-- Insert a comma after every third digit, on least-significant-first
digit lists (the thousands grouping of Python's `,` format flag). -/
def commaGroupAux : List Char → List Char
  | [] => []
  | [a] => [a]
  | [a, b] => [a, b]
  | [a, b, c] => [a, b, c]
  | a :: b :: c :: d :: rest => a :: b :: c :: ',' :: commaGroupAux (d :: rest)

/-- Decimal rendering of a natural number with thousands separators. -/
def commaGroup (m : Nat) : String :=
  ⟨(commaGroupAux (Nat.toDigits 10 m).reverse).reverse⟩

/-- Python `f"{n:,.4f}"` for an integer `n`: sign, comma-grouped integer
part, and four zero decimals. -/
def intCommaFixed4 (n : Int) : String :=
  (if n < 0 then "-" else "") ++ commaGroup n.natAbs ++ ".0000"

/-- Rendering routines provided by libraries outside this repository:
pandas' `to_string(max_rows=·)`, Python's `f"{x:,.4f}"` on floats, `str()`
on non-scalar values, and matplotlib's PNG serialization composed with
base64 encoding (`render`, taking a figure's drawn content). -/
structure PyLib where
  dfToString : DataFrame → Nat → String
  seriesToString : SeriesData → Nat → String
  floatFixed4 : String → String
  strFn : PyValue → String
  render : String → String

/-- The formatted rendering produced by the `isinstance` chain of
`execute_pandas_code`: `to_string(max_rows=50)` for DataFrames and Series,
`f"{result:,.4f}".rstrip('0').rstrip('.')` for int/float scalars, and
`str(result)` for dicts and everything else. -/
def formatResult (lib : PyLib) : PyValue → String
  | .vDataFrame d => lib.dfToString d 50
  | .vSeries s => lib.seriesToString s 50
  | .vInt n => pyRstrip '.' (pyRstrip '0' (intCommaFixed4 n))
  | .vFloat f => pyRstrip '.' (pyRstrip '0' (lib.floatFixed4 f))
  | v => lib.strFn v

/-- The Python object heap restricted to DataFrame objects: a list of
mutable cells addressed by position.  `self.df.copy()` allocates a fresh
cell holding the same value. -/
abbrev Store := List DataFrame

/-- The `DataAnalysisTools` class (`tools.py`) holds a reference to the
caller-owned DataFrame (`self.df`). -/
structure DataAnalysisTools where
  dfRef : Nat

/-- The DataFrame value a sandbox call binds to the name `df`: the current
content of the caller's cell (of which the call then takes a copy). -/
def sandboxDf (tools : DataAnalysisTools) (store : Store) : DataFrame :=
  List.getD store tools.dfRef default

/-- A Python exception, as captured by the sandboxes: type name, message,
and `traceback.format_exc()` text. -/
structure PyExc where
  tyName : String
  msg : String
  trace : String
  deriving DecidableEq

/-- The error string `f"{type(e).__name__}: {str(e)}\n{traceback.format_exc()}"`
built by both sandboxes. -/
def excText (e : PyExc) : String :=
  e.tyName ++ ": " ++ e.msg ++ "\n" ++ e.trace

/-- Net effect of `exec(code, namespace)` in the pandas sandbox: the
generated code may raise, may mutate the DataFrame cell it was handed
(`newDf` is that cell's final content), and may overwrite the `result`
slot, which `execute_pandas_code` initializes to `None` (`vNone`). -/
structure CodeRun where
  raises : Option PyExc
  newDf : DataFrame
  resultSlot : PyValue

/-- Generated analysis code, modelled by its net effect as a function of
the DataFrame copy bound to `df` — the only heap object it can reach. -/
abbrev GenCode := DataFrame → CodeRun

/-- The result dict of `execute_pandas_code` (missing keys are `none`). -/
structure ExecOutcome where
  success : Bool
  result : Option String
  resultData : Option PyValue
  error : Option String
  resultType : Option String
  deriving DecidableEq

/-- The failure dict returned when the `result` slot still holds `None`
after execution. -/
def noResultOutcome : ExecOutcome :=
  { success := false
    result := none
    resultData := none
    error := some "Code executed but no result was stored in \"result\" variable"
    resultType := none }

/-- Return value of one `execute_pandas_code` call: the heap after the
call, and the outcome dict. -/
structure PandasCallResult where
  store : Store
  outcome : ExecOutcome

/-- The outcome dict of `execute_pandas_code`, as a function of the net
effect of the executed code: either the caught exception, or the
no-result failure (the `result` slot still holds `None`), or the
classified and formatted stored result. -/
def pandasOutcome (lib : PyLib) (run : CodeRun) : ExecOutcome :=
  match run.raises with
  | some e =>
    { success := false, result := none, resultData := none
      error := some (excText e), resultType := none }
  | none =>
    if run.resultSlot = PyValue.vNone then
      noResultOutcome
    else
      { success := true
        result := some (formatResult lib run.resultSlot)
        resultData := some run.resultSlot
        error := none
        resultType := some (pyTypeName run.resultSlot) }

/-- Function `execute_pandas_code` (`tools.py`): bind a fresh *copy* of `self.df`
(a freshly allocated heap cell holding the same value) to `df` in a fresh
namespace with `result = None`, run the code — whose mutations land in the
copy's cell — and report the outcome. -/
def execute_pandas_code (lib : PyLib) (tools : DataAnalysisTools)
    (code : GenCode) (store : Store) : PandasCallResult :=
  let df := sandboxDf tools store
  let run := code df
  { store := List.set (store ++ [df]) (List.length store) run.newDf
    outcome := pandasOutcome lib run }

/-! ## The visualization sandbox (`tools.py`) -/

/-- Matplotlib's process-wide figure state: the open figures, each
recorded by its drawn content, most recent last. -/
structure MplState where
  figures : List String
  deriving DecidableEq

/-- Matplotlib `plt.savefig`: serialize the current figure (`plt.gcf()`), which
auto-creates an empty figure when none is open; returns the encoded image
and the figure state afterwards. -/
def pltSavefig (lib : PyLib) (m : MplState) : String × MplState :=
  match m.figures.getLast? with
  | none => (lib.render "", ⟨[""]⟩)
  | some f => (lib.render f, m)

/-- Matplotlib close-all (`plt.close` with argument `all`): discard every open figure. -/
def pltCloseAll (_ : MplState) : MplState := ⟨[]⟩

/-- Net effect of `exec(viz_code, namespace)`: may raise, leaves the
figure state in `mpl`, and may mutate the DataFrame copy bound to `df`. -/
structure VizRun where
  raises : Option PyExc
  mpl : MplState
  newDf : DataFrame

/-- Generated visualization code, modelled by its net effect as a function
of the DataFrame copy and the figure state it starts from. -/
abbrev VizCode := DataFrame → MplState → VizRun

/-- The result dict of `execute_visualization_code`. -/
structure VizOutcome where
  success : Bool
  image : Option String
  error : Option String
  deriving DecidableEq

/-- Return value of one `execute_visualization_code` call: heap, figure
state, and outcome dict. -/
structure VizCallResult where
  store : Store
  mpl : MplState
  outcome : VizOutcome

/-- The outcome dict and final figure state of `execute_visualization_code`,
as a function of the net effect of the charting code: on success,
`plt.savefig` serializes the current figure and then close-all runs; on an
exception, close-all still runs. -/
def vizOutcomeAndMpl (lib : PyLib) (run : VizRun) : VizOutcome × MplState :=
  match run.raises with
  | some e =>
    ({ success := false, image := none, error := some (excText e) }, pltCloseAll run.mpl)
  | none =>
    let saved := pltSavefig lib run.mpl
    ({ success := true, image := some saved.1, error := none }, pltCloseAll saved.2)

/-- Function `execute_visualization_code` (`tools.py`): run the charting code
against a fresh DataFrame copy (a freshly allocated heap cell), then
serialize the current figure to a base64 PNG and close all figures; on
any exception, still close all figures and report the error. -/
def execute_visualization_code (lib : PyLib) (tools : DataAnalysisTools)
    (vizCode : VizCode) (store : Store) (mpl : MplState) : VizCallResult :=
  let df := sandboxDf tools store
  let run := vizCode df mpl
  let om := vizOutcomeAndMpl lib run
  { store := List.set (store ++ [df]) (List.length store) run.newDf
    mpl := om.2
    outcome := om.1 }

/-! ## The workflow orchestrator (`agent.py`)

The LangGraph `AgentState` dict becomes `WState`; each graph node becomes
a state-update function parameterized by the oracle inputs it consumes (a
Gateway reply, a sandbox outcome); conditional edges become the router
functions `shouldRetry`, `shouldVisualize`, `shouldRetryVisualization`
evaluated on the node's updated state; one step of the compiled graph
becomes the relation `WStep` on node-state configurations.  Gateway
replies and sandbox outcomes are universally quantified: theorems hold for
every behavior of the external collaborators. -/

/-- The `AgentState` TypedDict (`agent.py`).  `execution_result` starts as
the empty dict, modelled as `none`. -/
structure WState where
  query : String
  datasetContext : String
  analysisPlan : String
  pandasCode : String
  executionResult : Option ExecOutcome
  needsVisualization : Bool
  visualizationCode : String
  visualizationImage : String
  visualizationError : String
  visualizationRetryCount : Nat
  response : String
  error : String
  retryCount : Nat
  deriving DecidableEq

/-- The nodes of the compiled workflow graph, plus the END marker. -/
inductive Node where
  | plan
  | generateCode
  | execute
  | retryCode
  | decideViz
  | generateViz
  | retryViz
  | formatResponse
  | done
  deriving DecidableEq

/-- Node `plan_analysis`: store the Gateway's plan and the dataset context,
and initialize the counters and flags. -/
def planUpdate (ctx reply : String) (s : WState) : WState :=
  { s with
    analysisPlan := reply
    datasetContext := ctx
    retryCount := 0
    visualizationRetryCount := 0
    needsVisualization := false
    visualizationError := "" }

/-- Node `generate_code`: extract the code from the Gateway reply. -/
def generateCodeUpdate (reply : String) (s : WState) : WState :=
  { s with pandasCode := extractCode reply }

/-- Node `execute_code`: record the sandbox outcome; on failure copy its
error message into `error`, on success clear `error`. -/
def executeCodeUpdate (er : ExecOutcome) (s : WState) : WState :=
  { s with
    executionResult := some er
    error := if er.success then "" else er.error.getD "" }

/-- Router `should_retry`: retry while `error` is non-empty (Python
truthiness of the string) and `retry_count < 2`. -/
def shouldRetry (s : WState) : String :=
  if s.error ≠ "" ∧ s.retryCount < 2 then "retry" else "continue"

/-- Node `retry_code`: increment the retry counter and extract the
corrected code from the Gateway reply. -/
def retryCodeUpdate (reply : String) (s : WState) : WState :=
  { s with
    retryCount := s.retryCount + 1
    pandasCode := extractCode reply }

/-- Node `decide_visualization`: when `error` is non-empty, force
`needs_visualization` to false without consulting the Gateway (the reply
argument is unused on that branch); otherwise set it from whether the
stripped-and-uppercased Gateway reply contains `"YES"`. -/
def decideVisualizationUpdate (reply : String) (s : WState) : WState :=
  if s.error ≠ "" then { s with needsVisualization := false }
  else { s with needsVisualization := pyContains "YES" (pyUpper (pyStrip reply)) }

/-- Router `should_visualize`: visualize iff `needs_visualization` is set
and `error` is empty. -/
def shouldVisualize (s : WState) : String :=
  if s.needsVisualization = true ∧ s.error = "" then "visualize" else "skip"

/-- Node `generate_visualization`: extract the charting code from the
Gateway reply, run the visualization sandbox, and record its outcome —
on success set the image and clear the error, on failure set the error
and clear the image. -/
def generateVizUpdate (reply : String) (vo : VizOutcome) (s : WState) : WState :=
  let s1 := { s with visualizationCode := extractCode reply }
  if vo.success then
    { s1 with
      visualizationImage := vo.image.getD ""
      visualizationError := "" }
  else
    { s1 with
      visualizationImage := ""
      visualizationError := vo.error.getD "" }

/-- Router `should_retry_visualization`: retry while `visualization_error`
is non-empty and `visualization_retry_count < 2`. -/
def shouldRetryVisualization (s : WState) : String :=
  if s.visualizationError ≠ "" ∧ s.visualizationRetryCount < 2 then "retry"
  else "continue"

/-- Node `retry_visualization`: a pure counter bump. -/
def retryVisualizationUpdate (s : WState) : WState :=
  { s with visualizationRetryCount := s.visualizationRetryCount + 1 }

/-- The fixed apologetic template of `format_response`, embedding the
terminal error. -/
def apologyResponse (err : String) : String :=
  "I encountered an error while analyzing the data:\n\n" ++ err ++
    "\n\nPlease try rephrasing your question or ask something else about the NYC 311 dataset."

/-- Node `format_response`: on a terminal analysis error, the apology
template (no Gateway call); otherwise the Gateway's narrated answer. -/
def formatResponseUpdate (reply : String) (s : WState) : WState :=
  if s.error ≠ "" then { s with response := apologyResponse s.error }
  else { s with response := reply }

/-- The initial state dict built by `process_query`. -/
def initState (q : String) : WState :=
  { query := q
    datasetContext := ""
    analysisPlan := ""
    pandasCode := ""
    executionResult := none
    needsVisualization := false
    visualizationCode := ""
    visualizationImage := ""
    visualizationError := ""
    visualizationRetryCount := 0
    response := ""
    error := ""
    retryCount := 0 }

/-- One step of the compiled workflow graph: a node runs on the current
state (consuming oracle inputs) and the attached router picks the next
node.  Unconditional edges have a single constructor; conditional edges
have one constructor per router outcome, guarded by the router's value on
the updated state, exactly as LangGraph evaluates it. -/
inductive WStep : Node × WState → Node × WState → Prop where
  | planStep (ctx reply : String) (s : WState) :
      WStep (Node.plan, s) (Node.generateCode, planUpdate ctx reply s)
  | generateCodeStep (reply : String) (s : WState) :
      WStep (Node.generateCode, s) (Node.execute, generateCodeUpdate reply s)
  | executeRetry (er : ExecOutcome) (s : WState)
      (h : shouldRetry (executeCodeUpdate er s) = "retry") :
      WStep (Node.execute, s) (Node.retryCode, executeCodeUpdate er s)
  | executeContinue (er : ExecOutcome) (s : WState)
      (h : shouldRetry (executeCodeUpdate er s) = "continue") :
      WStep (Node.execute, s) (Node.decideViz, executeCodeUpdate er s)
  | retryCodeStep (reply : String) (s : WState) :
      WStep (Node.retryCode, s) (Node.execute, retryCodeUpdate reply s)
  | decideVizVisualize (reply : String) (s : WState)
      (h : shouldVisualize (decideVisualizationUpdate reply s) = "visualize") :
      WStep (Node.decideViz, s) (Node.generateViz, decideVisualizationUpdate reply s)
  | decideVizSkip (reply : String) (s : WState)
      (h : shouldVisualize (decideVisualizationUpdate reply s) = "skip") :
      WStep (Node.decideViz, s) (Node.formatResponse, decideVisualizationUpdate reply s)
  | generateVizRetry (reply : String) (vo : VizOutcome) (s : WState)
      (h : shouldRetryVisualization (generateVizUpdate reply vo s) = "retry") :
      WStep (Node.generateViz, s) (Node.retryViz, generateVizUpdate reply vo s)
  | generateVizContinue (reply : String) (vo : VizOutcome) (s : WState)
      (h : shouldRetryVisualization (generateVizUpdate reply vo s) = "continue") :
      WStep (Node.generateViz, s) (Node.formatResponse, generateVizUpdate reply vo s)
  | retryVizStep (s : WState) :
      WStep (Node.retryViz, s) (Node.generateViz, retryVisualizationUpdate s)
  | formatStep (reply : String) (s : WState) :
      WStep (Node.formatResponse, s) (Node.done, formatResponseUpdate reply s)

/-- Configurations reachable by the workflow on query `q`. -/
def Reachable (q : String) (c : Node × WState) : Prop :=
  Relation.ReflTransGen WStep (Node.plan, initState q) c

/-- A complete or partial run of the workflow, recorded as the list of
configurations visited, in order. -/
inductive WTrace : Node × WState → List (Node × WState) → Prop where
  | nil (c : Node × WState) : WTrace c [c]
  | cons {c c' : Node × WState} {l : List (Node × WState)}
      (hs : WStep c c') (ht : WTrace c' l) : WTrace c (c :: l)

/-- Indicator charging one visit when the configuration sits at node `n`. -/
def nodeHit (n : Node) (c : Node × WState) : Nat :=
  if c.1 = n then 1 else 0

/-- How many times a run visits node `n` (for `execute` and `generateViz`
this counts execution and visualization attempts respectively). -/
def countNode (n : Node) : List (Node × WState) → Nat
  | [] => 0
  | c :: rest => nodeHit n c + countNode n rest

/-- The inductive invariant of the workflow: counter bounds, the guard
facts carried by the retry nodes, and which nodes can see a set
`needs_visualization` flag or a non-empty error. -/
def Inv : Node × WState → Prop
  | (n, s) =>
    s.retryCount ≤ 2 ∧
    s.visualizationRetryCount ≤ 2 ∧
    (n = Node.retryCode → s.retryCount < 2) ∧
    (n = Node.retryViz → s.visualizationRetryCount < 2) ∧
    (s.needsVisualization = true → s.error = "") ∧
    ((n = Node.plan ∨ n = Node.generateCode ∨ n = Node.execute ∨
        n = Node.retryCode) → s.needsVisualization = false) ∧
    (n = Node.generateViz → s.error = "") ∧
    (n = Node.retryViz → s.error = "") ∧
    (s.visualizationError ≠ "" → s.visualizationImage = "") ∧
    (n = Node.plan → s.retryCount = 0 ∧ s.visualizationRetryCount = 0)

/-- Potential bounding the number of future visits to `execute`. -/
def execBound : Node × WState → Nat
  | (Node.plan, _) => 3
  | (Node.generateCode, s) => 3 - s.retryCount
  | (Node.execute, s) => 2 - s.retryCount
  | (Node.retryCode, s) => 2 - s.retryCount
  | _ => 0

/-- Potential bounding the number of future visits to `generateViz`. -/
def vizBound : Node × WState → Nat
  | (Node.done, _) => 0
  | (Node.formatResponse, _) => 0
  | (Node.generateViz, s) => 2 - s.visualizationRetryCount
  | (Node.retryViz, s) => 2 - s.visualizationRetryCount
  | (Node.plan, _) => 3
  | (_, s) => 3 - s.visualizationRetryCount

/-! ## The top-level query API (`agent.py`, `process_query`) -/

/-- The dict returned by `process_query` — these five keys and no others
(in particular, no key carries `visualization_error`). -/
structure ProcessResult where
  response : String
  visualization : Option String
  codeExecuted : Option String
  visualizationCode : Option String
  success : Bool
  deriving DecidableEq

/-- The success-path return dict of `process_query`, built from the final
workflow state: `visualization` and `visualization_code` are present only
when the image string is non-empty (Python truthiness), and `success` is
the emptiness of `error`. -/
def toProcessResult (s : WState) : ProcessResult :=
  { response := s.response
    visualization := if s.visualizationImage ≠ "" then some s.visualizationImage else none
    codeExecuted := some s.pandasCode
    visualizationCode := if s.visualizationImage ≠ "" then some s.visualizationCode else none
    success := decide (s.error = "") }

/-- Entry point `process_query`: the graph invocation either returns a
final state or raises (any fault, Gateway faults included, surfaces here
as `Except.error`); the surrounding try/except converts a raised fault
into the generic-failure dict.  Totality of this function models "the API
never raises past this point". -/
def processQuery (invokeOutcome : Except String WState) : ProcessResult :=
  match invokeOutcome with
  | Except.ok finalState => toProcessResult finalState
  | Except.error e =>
    { response := "An unexpected error occurred: " ++ e
      visualization := none
      codeExecuted := none
      visualizationCode := none
      success := false }

/-! ## Concrete instances used by witnesses -/

/-- A concrete instance of the external rendering routines. -/
def lib0 : PyLib :=
  { dfToString := fun _ _ => "DF"
    seriesToString := fun _ _ => "SER"
    floatFixed4 := fun r => r
    strFn := fun _ => "STR"
    render := fun c => "IMG[" ++ c ++ "]" }

/-- Tools instance whose dataset lives in heap cell 0. -/
def tools0 : DataAnalysisTools := ⟨0⟩

/-- A small concrete dataset. -/
def df0 : DataFrame := ⟨["Complaint Type"], [["Noise"], ["Heat"]]⟩

/-- A heap holding only the caller-owned dataset. -/
def store0 : Store := [df0]

/-- Generated code whose net effect is storing `result = 42`. -/
def code42 : GenCode :=
  fun d => { raises := none, newDf := d, resultSlot := PyValue.vInt 42 }

/-- Generated code that runs cleanly but never assigns the `result` slot
(equivalently, assigns `result = None`). -/
def codeNoAssign : GenCode :=
  fun d => { raises := none, newDf := d, resultSlot := PyValue.vNone }

/-- Generated code that drops every column of the DataFrame bound to `df`
in place. -/
def codeDropCols : GenCode :=
  fun _ => { raises := none, newDf := ⟨[], []⟩, resultSlot := PyValue.vInt 0 }

/-- Visualization code that runs cleanly but never creates a figure. -/
def vizNoFig : VizCode :=
  fun d _ => { raises := none, mpl := ⟨[]⟩, newDf := d }

/-- Visualization code that drops every column of the DataFrame copy in
place and creates no figure. -/
def vizDropCols : VizCode :=
  fun _ m => { raises := none, mpl := m, newDf := ⟨[], []⟩ }

/-- Query for the C1 witness run. -/
def q1 : String := "How many rows are there?"

/-- C1 witness run, configuration states in order. -/
def w0 : WState := initState q1

/-- After `plan_analysis`. -/
def w1 : WState := planUpdate "ctx" "count the rows" w0

/-- After `generate_code`. -/
def w2 : WState := generateCodeUpdate "```python\nresult = len(df)\n```" w1

/-- A successful execution outcome with a scalar result. -/
def er1 : ExecOutcome :=
  { success := true, result := some "5", resultData := some (PyValue.vInt 5),
    error := none, resultType := some "int" }

/-- After `execute_code`. -/
def w3 : WState := executeCodeUpdate er1 w2

/-- After `decide_visualization` on a "NO" reply. -/
def w4 : WState := decideVisualizationUpdate "NO" w3

/-- After `format_response`. -/
def w5 : WState := formatResponseUpdate "There are 5 rows." w4

/-- The C1 witness run as a configuration list. -/
def c1Trace : List (Node × WState) :=
  [(Node.plan, w0), (Node.generateCode, w1), (Node.execute, w2),
    (Node.decideViz, w3), (Node.formatResponse, w4), (Node.done, w5)]

/-- A state carrying a terminal analysis error (C6 witness). -/
def sErr : WState := { initState "q" with error := "boom" }

/-- Query for the C6 witness run. -/
def q6 : String := "Top complaint types"

/-- C6 witness run states. -/
def y0 : WState := initState q6

/-- After `plan_analysis`. -/
def y1 : WState := planUpdate "ctx6" "plan6" y0

/-- After `generate_code`. -/
def y2 : WState := generateCodeUpdate "```python\nresult = df\n```" y1

/-- A successful execution outcome with a table result. -/
def er6 : ExecOutcome :=
  { success := true, result := some "tbl",
    resultData := some (PyValue.vDataFrame df0), error := none,
    resultType := some "DataFrame" }

/-- After `execute_code`. -/
def y3 : WState := executeCodeUpdate er6 y2

/-- After `decide_visualization` on a "YES" reply. -/
def y4 : WState := decideVisualizationUpdate "YES" y3

/-- Query for the C8 run (analysis succeeds, visualization fails out). -/
def q8 : String := "Plot the complaint types"

/-- C8 run states. -/
def z0 : WState := initState q8

/-- After `plan_analysis`. -/
def z1 : WState := planUpdate "ctx8" "plan8" z0

/-- After `generate_code`. -/
def z2 : WState := generateCodeUpdate "```python\nresult = df\n```" z1

/-- A successful execution outcome for the C8 run. -/
def er8 : ExecOutcome :=
  { success := true, result := some "tbl",
    resultData := some (PyValue.vDataFrame df0), error := none,
    resultType := some "DataFrame" }

/-- After `execute_code`. -/
def z3 : WState := executeCodeUpdate er8 z2

/-- After `decide_visualization` on a "YES" reply. -/
def z4 : WState := decideVisualizationUpdate "YES" z3

/-- The failing visualization outcome used three times in the C8 run. -/
def vo8 : VizOutcome :=
  { success := false, image := none, error := some "ValueError: boom" }

/-- After the first `generate_visualization` attempt (fails). -/
def z5 : WState := generateVizUpdate "```python\nplt.plot(bad)\n```" vo8 z4

/-- After the first `retry_visualization`. -/
def z6 : WState := retryVisualizationUpdate z5

/-- After the second `generate_visualization` attempt (fails). -/
def z7 : WState := generateVizUpdate "viz try 2" vo8 z6

/-- After the second `retry_visualization`. -/
def z8 : WState := retryVisualizationUpdate z7

/-- After the third `generate_visualization` attempt (fails, retries
exhausted). -/
def z9 : WState := generateVizUpdate "viz try 3" vo8 z8

/-- After `format_response` (narration path — analysis succeeded). -/
def z10 : WState := formatResponseUpdate "Here are your results." z9

/-! ## Theorems -/

/-! ### String primitive facts -/

example : pyStrip "  result = 1\n" = "result = 1" := by decide
example : pyUpper "yes, do" = "YES, DO" := by decide
example : pySplit "," "a,b,c" = ["a", "b", "c"] := by decide
example : pySplit "```" "``````" = ["", "", ""] := by decide
example : extractCode "```python\nresult = 1\n```" = "result = 1" := by decide
example : extractCode "result = 1\n" = "result = 1" := by decide
example : extractCode "```py\nresult = 1\n```" = "py\nresult = 1" := by decide
example : pyContains "YES" (pyUpper (pyStrip " yes ")) = true := by decide

example : commaGroup 1234567 = "1,234,567" := by decide
example : intCommaFixed4 42 = "42.0000" := by decide
example : intCommaFixed4 (-1234) = "-1,234.0000" := by decide
example : pyRstrip '.' (pyRstrip '0' (intCommaFixed4 42)) = "42" := by decide
example : pyRstrip '.' (pyRstrip '0' (intCommaFixed4 1000)) = "1,000" := by decide
example : pyRstrip '.' (pyRstrip '0' (intCommaFixed4 0)) = "0" := by decide

/-- If an extended pattern occurs at the head, so does the original pattern. -/
theorem leadMatch_of_append (p q l : List Char)
    (h : leadMatch (p ++ q) l = true) : leadMatch p l = true := by
  induction p generalizing l with
  | nil => rfl
  | cons a ps ih =>
    cases l with
    | nil => simp [leadMatch] at h
    | cons c cs =>
      simp only [List.cons_append, leadMatch, Bool.and_eq_true] at h ⊢
      exact ⟨h.1, ih cs h.2⟩

/-- If an extended pattern occurs in `l`, so does the original pattern. -/
theorem containsSeq_of_append (p q l : List Char)
    (h : containsSeq (p ++ q) l = true) : containsSeq p l = true := by
  induction l with
  | nil =>
    simp only [containsSeq, List.isEmpty_eq_true, List.append_eq_nil] at h ⊢
    exact h.1
  | cons c rest ih =>
    simp only [containsSeq, Bool.or_eq_true] at h ⊢
    rcases h with h | h
    · exact Or.inl (leadMatch_of_append p q _ h)
    · exact Or.inr (ih h)

/-- A string with no triple-backtick fence has no `"```python"` marker either. -/
theorem pyContains_python_of_ticks (s : String)
    (h : pyContains "```" s = false) : pyContains "```python" s = false := by
  by_contra hcon
  rw [Bool.not_eq_false] at hcon
  have hsplit : ("```python").data = ("```").data ++ ("python").data := by decide
  have := containsSeq_of_append ("```").data ("python").data s.data
    (by simpa [pyContains, hsplit] using hcon)
  simp [pyContains, this] at h


/-! ### Workflow router and node-update lemmas -/

/-- Characterization of the `should_retry` router. -/
theorem shouldRetry_retry_iff (s : WState) :
    shouldRetry s = "retry" ↔ s.error ≠ "" ∧ s.retryCount < 2 := by
  unfold shouldRetry
  by_cases hc : s.error ≠ "" ∧ s.retryCount < 2
  · rw [if_pos hc]
    exact iff_of_true rfl hc
  · rw [if_neg hc]
    exact iff_of_false (by decide) hc

/-- Characterization of the `should_visualize` router. -/
theorem shouldVisualize_visualize_iff (s : WState) :
    shouldVisualize s = "visualize" ↔
      s.needsVisualization = true ∧ s.error = "" := by
  unfold shouldVisualize
  by_cases hc : s.needsVisualization = true ∧ s.error = ""
  · rw [if_pos hc]
    exact iff_of_true rfl hc
  · rw [if_neg hc]
    exact iff_of_false (by decide) hc

/-- Characterization of the `should_retry_visualization` router. -/
theorem shouldRetryVisualization_retry_iff (s : WState) :
    shouldRetryVisualization s = "retry" ↔
      s.visualizationError ≠ "" ∧ s.visualizationRetryCount < 2 := by
  unfold shouldRetryVisualization
  by_cases hc : s.visualizationError ≠ "" ∧ s.visualizationRetryCount < 2
  · rw [if_pos hc]
    exact iff_of_true rfl hc
  · rw [if_neg hc]
    exact iff_of_false (by decide) hc

/-- Fields `decide_visualization` leaves untouched. -/
theorem decideVizUpdate_frame (reply : String) (s : WState) :
    (decideVisualizationUpdate reply s).retryCount = s.retryCount ∧
    (decideVisualizationUpdate reply s).visualizationRetryCount =
      s.visualizationRetryCount ∧
    (decideVisualizationUpdate reply s).error = s.error ∧
    (decideVisualizationUpdate reply s).visualizationError =
      s.visualizationError ∧
    (decideVisualizationUpdate reply s).visualizationImage =
      s.visualizationImage := by
  by_cases he : s.error ≠ "" <;> simp [decideVisualizationUpdate, he]

/-- Fields `generate_visualization` leaves untouched. -/
theorem generateVizUpdate_frame (reply : String) (vo : VizOutcome) (s : WState) :
    (generateVizUpdate reply vo s).retryCount = s.retryCount ∧
    (generateVizUpdate reply vo s).visualizationRetryCount =
      s.visualizationRetryCount ∧
    (generateVizUpdate reply vo s).error = s.error ∧
    (generateVizUpdate reply vo s).needsVisualization =
      s.needsVisualization := by
  by_cases hv : vo.success <;> simp [generateVizUpdate, hv]

/-- After `generate_visualization`, a non-empty visualization error entails
an empty visualization image (exactly one of the two fields is set). -/
theorem generateVizUpdate_err_img (reply : String) (vo : VizOutcome) (s : WState) :
    (generateVizUpdate reply vo s).visualizationError ≠ "" →
    (generateVizUpdate reply vo s).visualizationImage = "" := by
  by_cases hv : vo.success <;> simp [generateVizUpdate, hv]

/-- Fields `format_response` leaves untouched. -/
theorem formatUpdate_frame (reply : String) (s : WState) :
    (formatResponseUpdate reply s).retryCount = s.retryCount ∧
    (formatResponseUpdate reply s).visualizationRetryCount =
      s.visualizationRetryCount ∧
    (formatResponseUpdate reply s).error = s.error ∧
    (formatResponseUpdate reply s).needsVisualization = s.needsVisualization ∧
    (formatResponseUpdate reply s).visualizationError = s.visualizationError ∧
    (formatResponseUpdate reply s).visualizationImage = s.visualizationImage ∧
    (formatResponseUpdate reply s).pandasCode = s.pandasCode := by
  by_cases he : s.error ≠ "" <;> simp [formatResponseUpdate, he]

/-! ### The inductive invariant -/

/-- The invariant holds at the initial configuration. -/
theorem inv_init (q : String) : Inv (Node.plan, initState q) := by
  simp [Inv, initState]

/-- The invariant is preserved by every workflow step. -/
theorem inv_preserved {c c' : Node × WState} (hstep : WStep c c')
    (hinv : Inv c) : Inv c' := by
  obtain ⟨n0, s⟩ := c
  obtain ⟨h1, h2, h3, h4, h5, h6, h7, h8, h9, h10⟩ := hinv
  cases hstep with
  | planStep ctx reply s =>
    refine ⟨?_, ?_, ?_, ?_, ?_, ?_, ?_, ?_, ?_, ?_⟩ <;> simp [planUpdate]
  | generateCodeStep reply s =>
    refine ⟨?_, ?_, ?_, ?_, ?_, ?_, ?_, ?_, ?_, ?_⟩
    · simpa [generateCodeUpdate] using h1
    · simpa [generateCodeUpdate] using h2
    · simp
    · simp
    · simpa [generateCodeUpdate] using h5
    · intro _
      simpa [generateCodeUpdate] using h6 (Or.inr (Or.inl rfl))
    · simp
    · simp
    · simpa [generateCodeUpdate] using h9
    · simp
  | executeRetry er s h =>
    have hg := (shouldRetry_retry_iff _).mp h
    have hnv0 : s.needsVisualization = false := h6 (Or.inr (Or.inr (Or.inl rfl)))
    refine ⟨?_, ?_, ?_, ?_, ?_, ?_, ?_, ?_, ?_, ?_⟩
    · simpa [executeCodeUpdate] using h1
    · simpa [executeCodeUpdate] using h2
    · exact fun _ => hg.2
    · simp
    · intro hnv
      simp [executeCodeUpdate, hnv0] at hnv
    · intro _
      simpa [executeCodeUpdate] using hnv0
    · simp
    · simp
    · simpa [executeCodeUpdate] using h9
    · simp
  | executeContinue er s h =>
    have hnv0 : s.needsVisualization = false := h6 (Or.inr (Or.inr (Or.inl rfl)))
    refine ⟨?_, ?_, ?_, ?_, ?_, ?_, ?_, ?_, ?_, ?_⟩
    · simpa [executeCodeUpdate] using h1
    · simpa [executeCodeUpdate] using h2
    · simp
    · simp
    · intro hnv
      simp [executeCodeUpdate, hnv0] at hnv
    · simp
    · simp
    · simp
    · simpa [executeCodeUpdate] using h9
    · simp
  | retryCodeStep reply s =>
    have hrc := h3 rfl
    have hnv0 : s.needsVisualization = false := h6 (Or.inr (Or.inr (Or.inr rfl)))
    refine ⟨?_, ?_, ?_, ?_, ?_, ?_, ?_, ?_, ?_, ?_⟩
    · simp only [retryCodeUpdate]
      omega
    · simpa [retryCodeUpdate] using h2
    · simp
    · simp
    · intro hnv
      simp [retryCodeUpdate, hnv0] at hnv
    · intro _
      simpa [retryCodeUpdate] using hnv0
    · simp
    · simp
    · simpa [retryCodeUpdate] using h9
    · simp
  | decideVizVisualize reply s h =>
    have hg := (shouldVisualize_visualize_iff _).mp h
    have hfr := decideVizUpdate_frame reply s
    refine ⟨?_, ?_, ?_, ?_, ?_, ?_, ?_, ?_, ?_, ?_⟩
    · rw [hfr.1]; exact h1
    · rw [hfr.2.1]; exact h2
    · simp
    · simp
    · exact fun _ => hg.2
    · simp
    · exact fun _ => hg.2
    · simp
    · intro hne
      rw [hfr.2.2.2.2]
      exact h9 (by rwa [hfr.2.2.2.1] at hne)
    · simp
  | decideVizSkip reply s h =>
    have hfr := decideVizUpdate_frame reply s
    refine ⟨?_, ?_, ?_, ?_, ?_, ?_, ?_, ?_, ?_, ?_⟩
    · rw [hfr.1]; exact h1
    · rw [hfr.2.1]; exact h2
    · simp
    · simp
    · by_cases he : s.error ≠ ""
      · intro hnv
        simp [decideVisualizationUpdate, he] at hnv
      · intro _
        rw [hfr.2.2.1]
        simpa using he
    · simp
    · simp
    · simp
    · intro hne
      rw [hfr.2.2.2.2]
      exact h9 (by rwa [hfr.2.2.2.1] at hne)
    · simp
  | generateVizRetry reply vo s h =>
    have hg := (shouldRetryVisualization_retry_iff _).mp h
    have hfr := generateVizUpdate_frame reply vo s
    have herr : s.error = "" := h7 rfl
    refine ⟨?_, ?_, ?_, ?_, ?_, ?_, ?_, ?_, ?_, ?_⟩
    · rw [hfr.1]; exact h1
    · rw [hfr.2.1]; exact h2
    · simp
    · exact fun _ => hg.2
    · intro _
      rw [hfr.2.2.1]
      exact herr
    · simp
    · simp
    · intro _
      rw [hfr.2.2.1]
      exact herr
    · exact generateVizUpdate_err_img reply vo s
    · simp
  | generateVizContinue reply vo s h =>
    have hfr := generateVizUpdate_frame reply vo s
    have herr : s.error = "" := h7 rfl
    refine ⟨?_, ?_, ?_, ?_, ?_, ?_, ?_, ?_, ?_, ?_⟩
    · rw [hfr.1]; exact h1
    · rw [hfr.2.1]; exact h2
    · simp
    · simp
    · intro _
      rw [hfr.2.2.1]
      exact herr
    · simp
    · simp
    · simp
    · exact generateVizUpdate_err_img reply vo s
    · simp
  | retryVizStep s =>
    have hvrc := h4 rfl
    have herr := h8 rfl
    refine ⟨?_, ?_, ?_, ?_, ?_, ?_, ?_, ?_, ?_, ?_⟩
    · simpa [retryVisualizationUpdate] using h1
    · simp only [retryVisualizationUpdate]
      omega
    · simp
    · simp
    · intro _
      simpa [retryVisualizationUpdate] using herr
    · simp
    · intro _
      simpa [retryVisualizationUpdate] using herr
    · simp
    · simpa [retryVisualizationUpdate] using h9
    · simp
  | formatStep reply s =>
    have hfr := formatUpdate_frame reply s
    refine ⟨?_, ?_, ?_, ?_, ?_, ?_, ?_, ?_, ?_, ?_⟩
    · rw [hfr.1]; exact h1
    · rw [hfr.2.1]; exact h2
    · simp
    · simp
    · intro hnv
      rw [hfr.2.2.1]
      exact h5 (by rwa [hfr.2.2.2.1] at hnv)
    · simp
    · simp
    · simp
    · intro hne
      rw [hfr.2.2.2.2.2.1]
      exact h9 (by rwa [hfr.2.2.2.2.1] at hne)
    · simp

/-- Every reachable configuration satisfies the invariant. -/
theorem reachable_inv {q : String} {c : Node × WState}
    (h : Reachable q c) : Inv c := by
  induction h with
  | refl => exact inv_init q
  | tail hab hbc ih => exact inv_preserved hbc ih

/-- Every configuration visited by a run started in an invariant
configuration satisfies the invariant. -/
theorem trace_inv : ∀ {c : Node × WState} {l : List (Node × WState)},
    WTrace c l → Inv c → ∀ x ∈ l, Inv x := by
  intro c l ht
  induction ht with
  | nil c0 =>
    intro hc x hx
    rw [List.mem_singleton] at hx
    subst hx
    exact hc
  | cons hs ht ih =>
    intro hc x hx
    rcases List.mem_cons.mp hx with rfl | hx'
    · exact hc
    · exact ih (inv_preserved hs hc) x hx'

/-! ### Counting node visits -/

/-- Each step pays the visit it makes to `execute` out of the potential
`execBound`. -/
theorem execBound_step {c c' : Node × WState} (hstep : WStep c c')
    (hinv : Inv c) : nodeHit Node.execute c' + execBound c' ≤ execBound c := by
  obtain ⟨n0, s⟩ := c
  obtain ⟨h1, h2, h3, h4, _, _, _, _, _, h10⟩ := hinv
  cases hstep with
  | planStep ctx reply s =>
    simp [nodeHit, execBound, planUpdate]
  | generateCodeStep reply s =>
    simp only [nodeHit, execBound, generateCodeUpdate]
    simp
    omega
  | executeRetry er s h =>
    simp [nodeHit, execBound, executeCodeUpdate]
  | executeContinue er s h =>
    simp [nodeHit, execBound, executeCodeUpdate]
  | retryCodeStep reply s =>
    have hrc := h3 rfl
    simp only [nodeHit, execBound, retryCodeUpdate]
    simp
    omega
  | decideVizVisualize reply s h =>
    simp [nodeHit, execBound]
  | decideVizSkip reply s h =>
    simp [nodeHit, execBound]
  | generateVizRetry reply vo s h =>
    simp [nodeHit, execBound]
  | generateVizContinue reply vo s h =>
    simp [nodeHit, execBound]
  | retryVizStep s =>
    simp [nodeHit, execBound]
  | formatStep reply s =>
    simp [nodeHit, execBound]

/-- Each step pays the visit it makes to `generateViz` out of the
potential `vizBound`. -/
theorem vizBound_step {c c' : Node × WState} (hstep : WStep c c')
    (hinv : Inv c) : nodeHit Node.generateViz c' + vizBound c' ≤ vizBound c := by
  obtain ⟨n0, s⟩ := c
  obtain ⟨h1, h2, h3, h4, _, _, _, _, _, h10⟩ := hinv
  cases hstep with
  | planStep ctx reply s =>
    simp [nodeHit, vizBound, planUpdate]
  | generateCodeStep reply s =>
    simp [nodeHit, vizBound, generateCodeUpdate]
  | executeRetry er s h =>
    simp [nodeHit, vizBound, executeCodeUpdate]
  | executeContinue er s h =>
    simp [nodeHit, vizBound, executeCodeUpdate]
  | retryCodeStep reply s =>
    simp [nodeHit, vizBound, retryCodeUpdate]
  | decideVizVisualize reply s h =>
    have hfr := decideVizUpdate_frame reply s
    simp only [nodeHit, vizBound]
    simp [hfr.2.1]
    omega
  | decideVizSkip reply s h =>
    simp [nodeHit, vizBound]
  | generateVizRetry reply vo s h =>
    have hfr := generateVizUpdate_frame reply vo s
    simp only [nodeHit, vizBound]
    simp [hfr.2.1]
  | generateVizContinue reply vo s h =>
    simp [nodeHit, vizBound]
  | retryVizStep s =>
    have hvrc := h4 rfl
    simp only [nodeHit, vizBound, retryVisualizationUpdate]
    simp
    omega
  | formatStep reply s =>
    simp [nodeHit, vizBound]

/-- Along any run from an invariant configuration, the number of visits to
node `n` is bounded by the initial indicator plus any step-compatible
potential. -/
theorem trace_count_bound (n : Node) (B : Node × WState → Nat)
    (hB : ∀ a b : Node × WState, WStep a b → Inv a →
      nodeHit n b + B b ≤ B a) :
    ∀ {c : Node × WState} {l : List (Node × WState)}, WTrace c l → Inv c →
      countNode n l ≤ nodeHit n c + B c := by
  intro c l ht
  induction ht with
  | nil c0 =>
    intro _
    simp [countNode]
  | cons hs ht ih =>
    intro hc
    rename_i c1 c2 l2
    calc countNode n (c1 :: l2) = nodeHit n c1 + countNode n l2 := rfl
      _ ≤ nodeHit n c1 + (nodeHit n c2 + B c2) :=
          Nat.add_le_add_left (ih (inv_preserved hs hc)) _
      _ ≤ nodeHit n c1 + B c1 :=
          Nat.add_le_add_left (hB _ _ hs hc) _

/-- No step decreases either retry counter (the `plan` node's
re-initialization keeps them at their initial zero). -/
theorem step_counters_mono {c c' : Node × WState} (hstep : WStep c c')
    (hinv : Inv c) :
    c.2.retryCount ≤ c'.2.retryCount ∧
    c.2.visualizationRetryCount ≤ c'.2.visualizationRetryCount := by
  obtain ⟨n0, s⟩ := c
  obtain ⟨_, _, _, _, _, _, _, _, _, h10⟩ := hinv
  cases hstep with
  | planStep ctx reply s =>
    obtain ⟨hz1, hz2⟩ := h10 rfl
    constructor <;> simp [planUpdate, hz1, hz2]
  | generateCodeStep reply s =>
    exact ⟨by simp [generateCodeUpdate], by simp [generateCodeUpdate]⟩
  | executeRetry er s h =>
    exact ⟨by simp [executeCodeUpdate], by simp [executeCodeUpdate]⟩
  | executeContinue er s h =>
    exact ⟨by simp [executeCodeUpdate], by simp [executeCodeUpdate]⟩
  | retryCodeStep reply s =>
    exact ⟨by simp [retryCodeUpdate], by simp [retryCodeUpdate]⟩
  | decideVizVisualize reply s h =>
    have hfr := decideVizUpdate_frame reply s
    exact ⟨le_of_eq hfr.1.symm, le_of_eq hfr.2.1.symm⟩
  | decideVizSkip reply s h =>
    have hfr := decideVizUpdate_frame reply s
    exact ⟨le_of_eq hfr.1.symm, le_of_eq hfr.2.1.symm⟩
  | generateVizRetry reply vo s h =>
    have hfr := generateVizUpdate_frame reply vo s
    exact ⟨le_of_eq hfr.1.symm, le_of_eq hfr.2.1.symm⟩
  | generateVizContinue reply vo s h =>
    have hfr := generateVizUpdate_frame reply vo s
    exact ⟨le_of_eq hfr.1.symm, le_of_eq hfr.2.1.symm⟩
  | retryVizStep s =>
    exact ⟨by simp [retryVisualizationUpdate], by simp [retryVisualizationUpdate]⟩
  | formatStep reply s =>
    have hfr := formatUpdate_frame reply s
    exact ⟨le_of_eq hfr.1.symm, le_of_eq hfr.2.1.symm⟩

/-! ### Sandbox claims -/

/-- C2: for every code effect and heap, a successful `execute_pandas_code`
call carries a stored raw result whose `isinstance`-chain classification
lies in the closed set {Table, Column, Scalar, Mapping, Other} (the spec's
tags for the DataFrame / Series / int-float / dict / catch-all branches of
`tools.py`), together with that branch's formatted rendering and the
Python type name; in particular, code that stores `result = 42` yields a
success outcome classified Scalar with formatted result `"42"`, raw
result `42`, and type name `"int"`. -/
theorem c2_result_classification (lib : PyLib) (tools : DataAnalysisTools)
    (code : GenCode) (store : Store) :
    ((execute_pandas_code lib tools code store).outcome.success = true →
      ∃ raw : PyValue,
        (execute_pandas_code lib tools code store).outcome.resultData = some raw ∧
        classifyResult raw ∈
          [ResultClass.Table, ResultClass.Column, ResultClass.Scalar,
            ResultClass.Mapping, ResultClass.Other] ∧
        (execute_pandas_code lib tools code store).outcome.result =
          some (formatResult lib raw) ∧
        (execute_pandas_code lib tools code store).outcome.resultType =
          some (pyTypeName raw)) ∧
    (execute_pandas_code lib tools code42 store).outcome =
      { success := true, result := some "42",
        resultData := some (PyValue.vInt 42), error := none,
        resultType := some "int" } ∧
    classifyResult (PyValue.vInt 42) = ResultClass.Scalar := by
  refine ⟨?_, by rfl, rfl⟩
  intro h
  rcases hr : (code (sandboxDf tools store)).raises with _ | e
  · by_cases hs : (code (sandboxDf tools store)).resultSlot = PyValue.vNone
    · exfalso
      simp [execute_pandas_code, pandasOutcome, hr, hs, noResultOutcome] at h
    · refine ⟨(code (sandboxDf tools store)).resultSlot, ?_, ?_, ?_, ?_⟩
      · simp [execute_pandas_code, pandasOutcome, hr, hs]
      · cases (code (sandboxDf tools store)).resultSlot <;>
          simp [classifyResult]
      · simp [execute_pandas_code, pandasOutcome, hr, hs]
      · simp [execute_pandas_code, pandasOutcome, hr, hs]
  · exfalso
    simp [execute_pandas_code, pandasOutcome, hr] at h

/-- Witness for C2 at a concrete library, heap and code. -/
theorem c2_result_classification_witness :
    (execute_pandas_code lib0 tools0 code42 store0).outcome.success = true ∧
    (∃ raw : PyValue,
      (execute_pandas_code lib0 tools0 code42 store0).outcome.resultData = some raw ∧
      classifyResult raw ∈
        [ResultClass.Table, ResultClass.Column, ResultClass.Scalar,
          ResultClass.Mapping, ResultClass.Other] ∧
      (execute_pandas_code lib0 tools0 code42 store0).outcome.result =
        some (formatResult lib0 raw) ∧
      (execute_pandas_code lib0 tools0 code42 store0).outcome.resultType =
        some (pyTypeName raw)) :=
  ⟨rfl, (c2_result_classification lib0 tools0 code42 store0).1 rfl⟩

/-- C4: neither sandbox mutates the caller-owned dataset: the caller's
heap cell is untouched by `execute_pandas_code` and
`execute_visualization_code` (generated code only ever reaches the fresh
copy's cell), so a subsequent, independent sandbox call sees the same
DataFrame bound to `df` as the first call did. -/
theorem c4_sandbox_isolation (lib : PyLib) (tools : DataAnalysisTools)
    (code : GenCode) (vizCode : VizCode) (store : Store) (mpl : MplState)
    (h : tools.dfRef < List.length store) :
    ((execute_pandas_code lib tools code store).store)[tools.dfRef]? =
      store[tools.dfRef]? ∧
    sandboxDf tools (execute_pandas_code lib tools code store).store =
      sandboxDf tools store ∧
    ((execute_visualization_code lib tools vizCode store mpl).store)[tools.dfRef]? =
      store[tools.dfRef]? ∧
    sandboxDf tools (execute_visualization_code lib tools vizCode store mpl).store =
      sandboxDf tools store := by
  have key : ∀ d d' : DataFrame,
      (List.set (store ++ [d]) (List.length store) d')[tools.dfRef]? =
        store[tools.dfRef]? := by
    intro d d'
    rw [List.getElem?_set_ne (ne_of_gt h), List.getElem?_append_left h]
  have key2 : ∀ d d' : DataFrame,
      sandboxDf tools (List.set (store ++ [d]) (List.length store) d') =
        sandboxDf tools store := by
    intro d d'
    simp only [sandboxDf, List.getD_eq_getElem?_getD, key]
  exact ⟨key _ _, key2 _ _, key _ _, key2 _ _⟩

/-- Witness for C4: column-dropping code leaves the caller's dataset view
unchanged. -/
theorem c4_sandbox_isolation_witness :
    tools0.dfRef < List.length store0 ∧
    sandboxDf tools0 (execute_pandas_code lib0 tools0 codeDropCols store0).store =
      sandboxDf tools0 store0 :=
  ⟨by decide,
    (c4_sandbox_isolation lib0 tools0 codeDropCols vizDropCols store0 ⟨[]⟩
      (by decide)).2.1⟩

/-- C5: every `execute_visualization_code` call returns with matplotlib's
global figure list empty — the close-all call runs on the success path and
on the exception path alike — so no figure state survives into a
subsequent call. -/
theorem c5_figure_state_always_closed (lib : PyLib) (tools : DataAnalysisTools)
    (vizCode : VizCode) (store : Store) (mpl : MplState) :
    (execute_visualization_code lib tools vizCode store mpl).mpl.figures = [] := by
  cases hr : (vizCode (sandboxDf tools store) mpl).raises <;>
    simp [execute_visualization_code, vizOutcomeAndMpl, hr, pltCloseAll]

/-- C9: when generated code runs cleanly but leaves `None` in the `result`
slot — whether it never assigned the slot or explicitly assigned
`result = None` — `execute_pandas_code` returns the one no-result failure
outcome, so the two behaviors are indistinguishable to the caller. -/
theorem c9_none_result_indistinguishable (lib : PyLib)
    (tools : DataAnalysisTools) (store : Store) (code : GenCode)
    (hr : (code (sandboxDf tools store)).raises = none)
    (hs : (code (sandboxDf tools store)).resultSlot = PyValue.vNone) :
    (execute_pandas_code lib tools code store).outcome = noResultOutcome ∧
    ∀ other : GenCode, (other (sandboxDf tools store)).raises = none →
      (other (sandboxDf tools store)).resultSlot = PyValue.vNone →
      (execute_pandas_code lib tools other store).outcome =
        (execute_pandas_code lib tools code store).outcome := by
  have base : ∀ c : GenCode, (c (sandboxDf tools store)).raises = none →
      (c (sandboxDf tools store)).resultSlot = PyValue.vNone →
      (execute_pandas_code lib tools c store).outcome = noResultOutcome := by
    intro c h1 h2
    simp [execute_pandas_code, pandasOutcome, h1, h2]
  exact ⟨base code hr hs,
    fun o h1 h2 => (base o h1 h2).trans (base code hr hs).symm⟩

/-- Witness for C9 at concrete inputs. -/
theorem c9_none_result_indistinguishable_witness :
    (codeNoAssign (sandboxDf tools0 store0)).raises = none ∧
    (codeNoAssign (sandboxDf tools0 store0)).resultSlot = PyValue.vNone ∧
    (execute_pandas_code lib0 tools0 codeNoAssign store0).outcome =
      noResultOutcome :=
  ⟨rfl, rfl,
    (c9_none_result_indistinguishable lib0 tools0 store0 codeNoAssign rfl rfl).1⟩

/-- C10: visualization code that executes without raising always yields a
success outcome carrying an encoded image — the image serializes whatever
figure state the code left, and when the code created no figure at all the
auto-created empty figure is serialized (a blank image); producing nothing
renderable is never reported as a failure. -/
theorem c10_no_figure_still_success (lib : PyLib) (tools : DataAnalysisTools)
    (vizCode : VizCode) (store : Store) (mpl : MplState)
    (h : (vizCode (sandboxDf tools store) mpl).raises = none) :
    (execute_visualization_code lib tools vizCode store mpl).outcome.success = true ∧
    (execute_visualization_code lib tools vizCode store mpl).outcome.error = none ∧
    (execute_visualization_code lib tools vizCode store mpl).outcome.image =
      some (pltSavefig lib (vizCode (sandboxDf tools store) mpl).mpl).1 ∧
    ((vizCode (sandboxDf tools store) mpl).mpl.figures = [] →
      (execute_visualization_code lib tools vizCode store mpl).outcome.image =
        some (lib.render "")) := by
  refine ⟨?_, ?_, ?_, ?_⟩ <;>
    simp [execute_visualization_code, vizOutcomeAndMpl, h]
  intro hfig
  simp [pltSavefig, hfig]

/-- Witness for C10: figure-free visualization code still succeeds with
the blank image. -/
theorem c10_no_figure_still_success_witness :
    (vizNoFig (sandboxDf tools0 store0) ⟨[]⟩).raises = none ∧
    (execute_visualization_code lib0 tools0 vizNoFig store0 ⟨[]⟩).outcome.success = true ∧
    (execute_visualization_code lib0 tools0 vizNoFig store0 ⟨[]⟩).outcome.image =
      some (lib0.render "") :=
  ⟨rfl,
    (c10_no_figure_still_success lib0 tools0 vizNoFig store0 ⟨[]⟩ rfl).1,
    (c10_no_figure_still_success lib0 tools0 vizNoFig store0 ⟨[]⟩ rfl).2.2.2 rfl⟩

/-! ### Workflow claims -/

/-- The C1 witness run is a valid workflow trace. -/
theorem c1_trace_valid : WTrace (Node.plan, initState q1) c1Trace :=
  WTrace.cons (WStep.planStep "ctx" "count the rows" w0)
    (WTrace.cons (WStep.generateCodeStep "```python\nresult = len(df)\n```" w1)
      (WTrace.cons (WStep.executeContinue er1 w2 (by decide))
        (WTrace.cons (WStep.decideVizSkip "NO" w3 (by decide))
          (WTrace.cons (WStep.formatStep "There are 5 rows." w4)
            (WTrace.nil (Node.done, w5))))))

/-- C1: along every workflow run, `retry_count` and
`visualization_retry_count` never exceed 2, the run visits `execute_code`
at most 3 times and `generate_visualization` at most 3 times,
`should_retry` answers "retry" exactly when the error is non-empty and
`retry_count < 2`, `should_retry_visualization` answers "retry" exactly
when the visualization error is non-empty and
`visualization_retry_count < 2`, each retry node increments its counter by
exactly one, and no step of the run decreases either counter. -/
theorem c1_retry_bounds (q : String) (l : List (Node × WState))
    (hl : WTrace (Node.plan, initState q) l) :
    (∀ c ∈ l, c.2.retryCount ≤ 2 ∧ c.2.visualizationRetryCount ≤ 2) ∧
    countNode Node.execute l ≤ 3 ∧
    countNode Node.generateViz l ≤ 3 ∧
    (∀ s : WState, shouldRetry s = "retry" ↔
      s.error ≠ "" ∧ s.retryCount < 2) ∧
    (∀ s : WState, shouldRetryVisualization s = "retry" ↔
      s.visualizationError ≠ "" ∧ s.visualizationRetryCount < 2) ∧
    (∀ (reply : String) (s : WState),
      (retryCodeUpdate reply s).retryCount = s.retryCount + 1) ∧
    (∀ s : WState,
      (retryVisualizationUpdate s).visualizationRetryCount =
        s.visualizationRetryCount + 1) ∧
    (∀ c ∈ l, ∀ c' : Node × WState, WStep c c' →
      c.2.retryCount ≤ c'.2.retryCount ∧
      c.2.visualizationRetryCount ≤ c'.2.visualizationRetryCount) := by
  have hinv0 := inv_init q
  have hmem := trace_inv hl hinv0
  refine ⟨?_, ?_, ?_, ?_, ?_, ?_, ?_, ?_⟩
  · intro c hc
    obtain ⟨n, st⟩ := c
    exact ⟨(hmem _ hc).1, (hmem _ hc).2.1⟩
  · have hb := trace_count_bound Node.execute execBound
      (fun a b hs hi => execBound_step hs hi) hl hinv0
    simpa [nodeHit, execBound] using hb
  · have hb := trace_count_bound Node.generateViz vizBound
      (fun a b hs hi => vizBound_step hs hi) hl hinv0
    simpa [nodeHit, vizBound] using hb
  · exact shouldRetry_retry_iff
  · exact shouldRetryVisualization_retry_iff
  · intro reply st
    rfl
  · intro st
    rfl
  · intro c hc c' hs
    exact step_counters_mono hs (hmem c hc)

/-- Witness for C1 on a concrete six-step run. -/
theorem c1_retry_bounds_witness :
    WTrace (Node.plan, initState q1) c1Trace ∧
    countNode Node.execute c1Trace ≤ 3 ∧
    countNode Node.generateViz c1Trace ≤ 3 :=
  ⟨c1_trace_valid,
    (c1_retry_bounds q1 c1Trace c1_trace_valid).2.1,
    (c1_retry_bounds q1 c1Trace c1_trace_valid).2.2.1⟩

/-- The C6 witness run reaches `generate_visualization`. -/
theorem c6_chain : Reachable q6 (Node.generateViz, y4) :=
  Relation.ReflTransGen.head (WStep.planStep "ctx6" "plan6" y0)
    (Relation.ReflTransGen.head
      (WStep.generateCodeStep "```python\nresult = df\n```" y1)
      (Relation.ReflTransGen.head (WStep.executeContinue er6 y2 (by decide))
        (Relation.ReflTransGen.head
          (WStep.decideVizVisualize "YES" y3 (by decide))
          Relation.ReflTransGen.refl)))

/-- C6: when `error` is non-empty at `decide_visualization`,
`needs_visualization` is forced false and the result does not depend on
any Gateway reply (the Gateway is not consulted); in every reachable
configuration `generate_visualization` is only ever entered with an empty
error, and `needs_visualization` is only ever true when `error` is
empty. -/
theorem c6_visualization_requires_no_error :
    (∀ (s : WState) (r1 r2 : String), s.error ≠ "" →
      (decideVisualizationUpdate r1 s).needsVisualization = false ∧
      decideVisualizationUpdate r1 s = decideVisualizationUpdate r2 s) ∧
    (∀ (q : String) (c : Node × WState), Reachable q c →
      c.1 = Node.generateViz → c.2.error = "") ∧
    (∀ (q : String) (c : Node × WState), Reachable q c →
      c.2.needsVisualization = true → c.2.error = "") := by
  refine ⟨?_, ?_, ?_⟩
  · intro st r1 r2 he
    constructor <;> simp [decideVisualizationUpdate, he]
  · intro q c h hn
    obtain ⟨n, st⟩ := c
    subst hn
    exact (reachable_inv h).2.2.2.2.2.2.1 rfl
  · intro q c h hn
    obtain ⟨n, st⟩ := c
    exact (reachable_inv h).2.2.2.2.1 hn

/-- Witness for C6: a concrete erroring state forces the flag false
independently of the reply, and a concrete run entering
`generate_visualization` has an empty error. -/
theorem c6_visualization_requires_no_error_witness :
    sErr.error ≠ "" ∧
    (decideVisualizationUpdate "YES PLEASE" sErr).needsVisualization = false ∧
    decideVisualizationUpdate "YES PLEASE" sErr =
      decideVisualizationUpdate "NO" sErr ∧
    y4.error = "" :=
  ⟨by decide,
    (c6_visualization_requires_no_error.1 sErr "YES PLEASE" "NO" (by decide)).1,
    (c6_visualization_requires_no_error.1 sErr "YES PLEASE" "NO" (by decide)).2,
    c6_visualization_requires_no_error.2.1 q6 (Node.generateViz, y4) c6_chain rfl⟩

/-- C3: `process_query` is total on every graph-invocation outcome (the
try/except boundary never re-raises), and any raised fault — Gateway
faults included — becomes a returned record with `success := false` and
the generic error message as the response; a returned final state yields
`success` exactly when its error is empty. -/
theorem c3_process_query_total (g : Except String WState) :
    (∃ r : ProcessResult, processQuery g = r) ∧
    (∀ e : String, g = Except.error e →
      processQuery g =
        { response := "An unexpected error occurred: " ++ e
          visualization := none
          codeExecuted := none
          visualizationCode := none
          success := false }) ∧
    (∀ fs : WState, g = Except.ok fs →
      (processQuery g).success = decide (fs.error = "")) := by
  refine ⟨⟨processQuery g, rfl⟩, ?_, ?_⟩
  · intro e he
    subst he
    rfl
  · intro fs hf
    subst hf
    rfl

/-- Witness for C3 at a concrete Gateway fault. -/
theorem c3_process_query_total_witness :
    processQuery (Except.error "Gateway timeout") =
      { response := "An unexpected error occurred: Gateway timeout"
        visualization := none
        codeExecuted := none
        visualizationCode := none
        success := false } :=
  (c3_process_query_total (Except.error "Gateway timeout")).2.1
    "Gateway timeout" rfl

/-- C7 as stated is false on three counts: unfenced text is not passed
through unmodified (it is whitespace-stripped); a language tag other than
`python` is not dropped; and when a python-tagged fence is present the
extraction takes that block rather than the first fenced block. -/
theorem c7_counterexample :
    extractCode "result = 1\n" ≠ "result = 1\n" ∧
    extractCode "result = 1\n" = "result = 1" ∧
    extractCode "```py\nresult = 1\n```" ≠ "result = 1" ∧
    extractCode "```py\nresult = 1\n```" = "py\nresult = 1" ∧
    extractCode "a ```first``` b ```python\nsecond\n```" ≠ "first" ∧
    extractCode "a ```first``` b ```python\nsecond\n```" = "second" :=
  ⟨by decide, by decide, by decide, by decide, by decide, by decide⟩

/-- C7 amended: the extraction keeps the contents between the first
`"```python"` marker and the next fence when a python-tagged marker is
present (even if an untagged fence appears earlier), otherwise the first
fenced block's contents including any non-python language tag, and
otherwise the whole reply; in every case the kept text is stripped of
leading and trailing whitespace — so fence-free replies pass through
stripped, not unmodified.  Input `"```python\nresult = 1\n```"` yields
`"result = 1"`. -/
theorem c7_extraction_amended :
    (∀ s : String, pyContains "```" s = false → extractCode s = pyStrip s) ∧
    extractCode "```python\nresult = 1\n```" = "result = 1" ∧
    extractCode "```py\nresult = 1\n```" = "py\nresult = 1" ∧
    extractCode "a ```first``` b ```python\nsecond\n```" = "second" := by
  refine ⟨?_, by decide, by decide, by decide⟩
  intro t h
  have h2 := pyContains_python_of_ticks t h
  simp [extractCode, h, h2]

/-- Witness for the amended C7 on a fence-free reply. -/
theorem c7_extraction_amended_witness :
    pyContains "```" "result = 1\n" = false ∧
    extractCode "result = 1\n" = pyStrip "result = 1\n" :=
  ⟨by decide, c7_extraction_amended.1 "result = 1\n" (by decide)⟩

/-- The C8 run (analysis succeeded, three visualization failures) reaches
the END node. -/
theorem c8_chain : Reachable q8 (Node.done, z10) :=
  Relation.ReflTransGen.head (WStep.planStep "ctx8" "plan8" z0)
    (Relation.ReflTransGen.head
      (WStep.generateCodeStep "```python\nresult = df\n```" z1)
      (Relation.ReflTransGen.head (WStep.executeContinue er8 z2 (by decide))
        (Relation.ReflTransGen.head
          (WStep.decideVizVisualize "YES" z3 (by decide))
          (Relation.ReflTransGen.head
            (WStep.generateVizRetry "```python\nplt.plot(bad)\n```" vo8 z4
              (by decide))
            (Relation.ReflTransGen.head (WStep.retryVizStep z5)
              (Relation.ReflTransGen.head
                (WStep.generateVizRetry "viz try 2" vo8 z6 (by decide))
                (Relation.ReflTransGen.head (WStep.retryVizStep z7)
                  (Relation.ReflTransGen.head
                    (WStep.generateVizContinue "viz try 3" vo8 z8 (by decide))
                    (Relation.ReflTransGen.head
                      (WStep.formatStep "Here are your results." z9)
                      Relation.ReflTransGen.refl)))))))))

/-- C8 as stated is false in its last conjunct: on this complete run the
analysis succeeded, all three visualization attempts failed, the final
state retains the visualization error — yet the record returned to the
API caller has only the five keys response / visualization /
code_executed / visualization_code / success, and none of them carries
the retained error text. -/
theorem c8_counterexample :
    Reachable q8 (Node.done, z10) ∧
    z10.error = "" ∧
    z10.visualizationError = "ValueError: boom" ∧
    toProcessResult z10 =
      { response := "Here are your results."
        visualization := none
        codeExecuted := some "result = df"
        visualizationCode := none
        success := true } ∧
    pyContains "boom" (toProcessResult z10).response = false ∧
    pyContains "boom" ((toProcessResult z10).codeExecuted.getD "") = false :=
  ⟨c8_chain, by decide, by decide, by decide, by decide, by decide⟩

/-- C8 amended: for every run whose final state has an empty analysis
error and a non-empty visualization error (retries exhausted), the
returned record has the narration response of the final state,
`visualization` and `visualization_code` absent, the executed code
present, and `success = true`; the visualization error is retained in the
final workflow state only — `process_query`'s record has no field for it.
Moreover with an empty error `format_response` takes the narration path,
not the apology. -/
theorem c8_viz_failure_semantics (q : String) (fs : WState)
    (hreach : Reachable q (Node.done, fs)) (herr : fs.error = "")
    (hviz : fs.visualizationError ≠ "") :
    toProcessResult fs =
      { response := fs.response
        visualization := none
        codeExecuted := some fs.pandasCode
        visualizationCode := none
        success := true } ∧
    (∀ (reply : String) (st : WState), st.error = "" →
      (formatResponseUpdate reply st).response = reply) := by
  have himg : fs.visualizationImage = "" :=
    (reachable_inv hreach).2.2.2.2.2.2.2.2.1 hviz
  constructor
  · simp [toProcessResult, himg, herr]
  · intro reply st hs
    simp [formatResponseUpdate, hs]

/-- Witness for the amended C8 on the concrete exhausted-retries run. -/
theorem c8_viz_failure_semantics_witness :
    z10.error = "" ∧
    z10.visualizationError ≠ "" ∧
    toProcessResult z10 =
      { response := z10.response
        visualization := none
        codeExecuted := some z10.pandasCode
        visualizationCode := none
        success := true } :=
  ⟨by decide, by decide,
    (c8_viz_failure_semantics q8 z10 c8_chain (by decide) (by decide)).1⟩

end NYC311
